import Mathlib

/-!
Verification of the tweepy `API` client (tweepy/api.py) against its
natural-language specification.

The source file under verification is `tweepy/api.py` (Python 2 era).
Python byte strings (`str`) are modelled as Lean `String` whose characters
stand for single bytes; `len` is `String.length`.  Raised `TweepError`s are
modelled with `Except`.  The filesystem accessed by `os.path.getsize` /
`open(filename, 'rb')` is an explicit parameter `fs : String → Option String`
mapping a filename to its byte contents (`none` = inaccessible, i.e.
`os.error`).  An already-open file object `f` is modelled by its byte
contents, since `_pack_image` only uses `seek`/`tell`/`read`.
-/

namespace Tweepy

/-- A raised `TweepError`: its message and, when one is attached, the status
code of the HTTP response it carries (`e.response.status`). -/
structure TweepE where
  reason : String
  response : Option Nat
deriving DecidableEq, Repr

/-- `'%s' % x` for an `Option String` standing for a Python value that is
either a string or `None`: `None` formats as the text `"None"`. -/
def pyStrOpt : Option String → String
  | Option.none => "None"
  | Option.some s => s

/-- Python `str.endswith`, used to model the extension lookup of
`mimetypes.guess_type`: a list-based suffix test on the byte characters. -/
def strEndsWith (s suffix : String) : Bool :=
  suffix.data.isSuffixOf s.data

/-- Model of CPython `mimetypes.guess_type`, restricted to the extensions
relevant here.  It always returns a pair `(type, encoding)` — for an
unrecognised name the pair is `(None, None)`, never `None` itself — so the
outer `Option` (standing for Python `None`) is never `none`. -/
def mimetypes_guess_type (filename : String) : Option (Option String × Option String) :=
  Option.some (
    (if strEndsWith filename ".gif" then Option.some "image/gif"
     else if strEndsWith filename ".jpg" || strEndsWith filename ".jpeg" then
       Option.some "image/jpeg"
     else if strEndsWith filename ".png" then Option.some "image/png"
     else if strEndsWith filename ".bmp" then Option.some "image/bmp"
     else Option.none),
    Option.none)

/-- The first component of `mimetypes.guess_type filename`. -/
def guessedType (filename : String) : Option String :=
  if strEndsWith filename ".gif" then Option.some "image/gif"
  else if strEndsWith filename ".jpg" || strEndsWith filename ".jpeg" then
    Option.some "image/jpeg"
  else if strEndsWith filename ".png" then Option.some "image/png"
  else if strEndsWith filename ".bmp" then Option.some "image/bmp"
  else Option.none

/-- Uppercase hexadecimal digit, as produced by Python 2 `urllib.quote`. -/
def hexDigit (n : Nat) : Char :=
  if n < 10 then Char.ofNat (48 + n) else Char.ofNat (55 + n)

/-- One character of Python 2 `urllib.quote(s)` with the default
`safe='/'`: letters, digits, `_`, `.`, `-` and `/` pass through, every
other byte becomes `%XX` with uppercase hex. -/
def quoteChar (c : Char) : String :=
  if c.isAlphanum || c = '_' || c = '.' || c = '-' || c = '/' then
    String.singleton c
  else
    String.mk ['%', hexDigit (c.toNat / 16 % 16), hexDigit (c.toNat % 16)]

/-- Python 2 `urllib.quote` with default `safe='/'`. -/
def urllib_quote (s : String) : String :=
  String.join (s.toList.map quoteChar)

/-- The MIME allow-list of `API._pack_image`:
`['image/gif', 'image/jpeg', 'image/png']`. -/
def imageAllowList : List String := ["image/gif", "image/jpeg", "image/png"]

/-- The fixed multipart boundary token of `API._pack_image`. -/
def BOUNDARY : String := "Tw3ePy"

/-- The size-check stage of `API._pack_image`: obtain the file bytes and
reject files over `max_size * 1024` bytes.  When `f` is `none` the file is
named by `filename` and read through `fs` (`os.path.getsize` then `open`);
a lookup failure is `os.error`, reported as 'Unable to access file'.  When
an open file object `f` is supplied, `f.seek(0, 2); f.tell()` yields its
byte length.  Both branches use the strict test `> max_size * 1024`. -/
def sizeCheckedContents (fs : String → Option String) (filename : String)
    (max_size : Nat) (f : Option String) : Except TweepE String :=
  match f with
  | Option.none =>
    match fs filename with
    | Option.none => Except.error ⟨"Unable to access file", Option.none⟩
    | Option.some contents =>
      if contents.length > max_size * 1024 then
        Except.error ⟨"File is too big, must be less than 700kb.", Option.none⟩
      else
        Except.ok contents
  | Option.some contents =>
    if contents.length > max_size * 1024 then
      Except.error ⟨"File is too big, must be less than 700kb.", Option.none⟩
    else
      Except.ok contents

/-- The multipart body `API._pack_image` builds on success: the CRLF-join
of the opening boundary line, the Content-Disposition line (form field name
and URL-quoted filename), the Content-Type line, a blank line, the file
bytes, the closing boundary, and a trailing empty segment. -/
def multipartBody (form_field filename file_type contents : String) : String :=
  String.intercalate "\r\n"
    ["--" ++ BOUNDARY,
     "Content-Disposition: form-data; name=\"" ++ form_field ++ "\"; filename=\"" ++
       urllib_quote filename ++ "\"",
     "Content-Type: " ++ file_type,
     "",
     contents,
     "--" ++ BOUNDARY ++ "--",
     ""]

/-- `API._pack_image(filename, max_size, form_field, f)`.  The filename is a
Python 2 byte string, so the `isinstance(filename, unicode)` re-encoding is
the identity and is omitted.  Returns the headers dict (as an association
list) and the multipart body, or the raised `TweepError`. -/
def pack_image (fs : String → Option String) (filename : String) (max_size : Nat)
    (form_field : String) (f : Option String) :
    Except TweepE (List (String × String) × String) :=
  match sizeCheckedContents fs filename max_size f with
  | Except.error e => Except.error e
  | Except.ok contents =>
    match mimetypes_guess_type filename with
    | Option.none => Except.error ⟨"Could not determine file type", Option.none⟩
    | Option.some tp =>
      match tp.1 with
      | Option.some file_type =>
        if file_type ∈ imageAllowList then
          let body := multipartBody form_field filename file_type contents
          Except.ok
            ([("Content-Type", "multipart/form-data; boundary=Tw3ePy"),
              ("Content-Length", toString body.length)],
             body)
        else
          Except.error ⟨"Invalid file type for image: " ++ file_type, Option.none⟩
      | Option.none =>
        Except.error ⟨"Invalid file type for image: " ++ pyStrOpt Option.none, Option.none⟩

/-- Outcome of one upload-style API call: how many network transactions were
issued and either the transport's response or the raised `TweepError`. -/
structure CallOutcome where
  networkCalls : Nat
  result : Except TweepE String
deriving Repr

/-- Shared shape of the four upload methods: each first calls
`API._pack_image` and only on success hands the headers and post body to
the bound endpoint (the network transport). -/
def runUpload (transport : List (String × String) → String → String)
    (packed : Except TweepE (List (String × String) × String)) : CallOutcome :=
  match packed with
  | Except.error e => ⟨0, Except.error e⟩
  | Except.ok hb => ⟨1, Except.ok (transport hb.1 hb.2)⟩

/-- `API.update_with_media`: `_pack_image(filename, 3072, form_field='media[]', f=f)`
then the POST to /statuses/update_with_media.json. -/
def update_with_media (fs : String → Option String) (filename : String)
    (f : Option String) (transport : List (String × String) → String → String) :
    CallOutcome :=
  runUpload transport (pack_image fs filename 3072 "media[]" f)

/-- `API.update_profile_image`: `_pack_image(filename, 700, f=file_)` (default
form field "image") then the POST to /account/update_profile_image.json. -/
def update_profile_image (fs : String → Option String) (filename : String)
    (f : Option String) (transport : List (String × String) → String → String) :
    CallOutcome :=
  runUpload transport (pack_image fs filename 700 "image" f)

/-- `API.update_profile_background_image`: `_pack_image(filename, 800, f=f)`
then the POST to /account/update_profile_background_image.json. -/
def update_profile_background_image (fs : String → Option String) (filename : String)
    (f : Option String) (transport : List (String × String) → String → String) :
    CallOutcome :=
  runUpload transport (pack_image fs filename 800 "image" f)

/-- `API.update_profile_banner`: `_pack_image(filename, 700, form_field="banner", f=f)`
then the POST to /account/update_profile_banner.json. -/
def update_profile_banner (fs : String → Option String) (filename : String)
    (f : Option String) (transport : List (String × String) → String → String) :
    CallOutcome :=
  runUpload transport (pack_image fs filename 700 "banner" f)

/-- The byte length of the upload source: the open file object's length when
one is supplied, otherwise the size of the named file (when accessible). -/
def sourceSize (fs : String → Option String) (filename : String)
    (f : Option String) : Option Nat :=
  match f with
  | Option.some contents => Option.some contents.length
  | Option.none => (fs filename).map String.length

/-- Result of `API.verify_credentials`: either the decoded user object or
the Python value `False`. -/
inductive VCValue where
  | user (u : String)
  | boolFalse
deriving DecidableEq, Repr

/-- `API.verify_credentials`: runs the bound
/account/verify_credentials.json call (whose outcome is the argument);
on a raised `TweepError` `e`, when `e.response and e.response.status == 401`
it returns `False`, otherwise it re-raises `e`; on success it returns the
decoded user. -/
def verify_credentials (call : Except TweepE String) : Except TweepE VCValue :=
  match call with
  | Except.ok u => Except.ok (VCValue.user u)
  | Except.error e =>
    match e.response with
    | Option.some status =>
      if status = 401 then Except.ok VCValue.boolFalse else Except.error e
    | Option.none => Except.error e

/-- The Python value passed as the `parser` argument of `API.__init__`:
`None`, an instance of a `Parser` subclass, or some other object (an int,
a string, ...). -/
inductive ParserArgV where
  | pyNone
  | modelParserInst
  | jsonParserInst
  | rawParserInst
  | intVal (n : Int)
  | strVal (s : String)
deriving DecidableEq, Repr

/-- Python truthiness of a `ParserArgV`: `None`, `0` and `''` are falsy,
parser instances (objects without `__bool__`/`__len__`) are truthy. -/
def pyTruthy : ParserArgV → Bool
  | ParserArgV.pyNone => false
  | ParserArgV.modelParserInst => true
  | ParserArgV.jsonParserInst => true
  | ParserArgV.rawParserInst => true
  | ParserArgV.intVal n => n ≠ 0
  | ParserArgV.strVal s => s ≠ ""

/-- `isinstance(x, Parser)` for a `ParserArgV`. -/
def isParserInstance : ParserArgV → Bool
  | ParserArgV.modelParserInst => true
  | ParserArgV.jsonParserInst => true
  | ParserArgV.rawParserInst => true
  | _ => false

/-- The attributes stored on a constructed `API` object. -/
structure APIState where
  auth : Option String
  host : String
  search_host : String
  api_root : String
  search_root : String
  cache : Option String
  compression : Bool
  retry_count : Nat
  retry_delay : Nat
  retry_errors : Option (List Nat)
  timeout : Nat
  wait_on_rate_limit : Bool
  wait_on_rate_limit_notify : Bool
  parser : ParserArgV
  proxy : List (String × String)
deriving DecidableEq, Repr

/-- `API.__init__` with its Python parameters in source order.  It stores
every argument on `self`, replaces a falsy `parser` by `ModelParser()`
(`self.parser = parser or ModelParser()`), turns a truthy `proxy` string
into the mapping `{'https': proxy}` (else the empty dict), and raises
`TypeError` when the stored parser is not a `Parser` instance. -/
def API_init (auth_handler : Option String) (host : String) (search_host : String)
    (cache : Option String) (api_root : String) (search_root : String)
    (retry_count : Nat) (retry_delay : Nat) (retry_errors : Option (List Nat))
    (timeout : Nat) (parser : ParserArgV) (compression : Bool)
    (wait_on_rate_limit : Bool) (wait_on_rate_limit_notify : Bool)
    (proxy : String) : Except String APIState :=
  let storedParser := if pyTruthy parser then parser else ParserArgV.modelParserInst
  if isParserInstance storedParser then
    Except.ok
      { auth := auth_handler
        host := host
        search_host := search_host
        api_root := api_root
        search_root := search_root
        cache := cache
        compression := compression
        retry_count := retry_count
        retry_delay := retry_delay
        retry_errors := retry_errors
        timeout := timeout
        wait_on_rate_limit := wait_on_rate_limit
        wait_on_rate_limit_notify := wait_on_rate_limit_notify
        parser := storedParser
        proxy := if proxy ≠ "" then [("https", proxy)] else [] }
  else
    Except.error "TypeError: parser argument has to be an instance of Parser"

/-- `API()` — the constructor applied to the documented default of every
parameter: `auth_handler=None, host='api.twitter.com',
search_host='search.twitter.com', cache=None, api_root='/1.1',
search_root='', retry_count=0, retry_delay=0, retry_errors=None,
timeout=60, parser=None, compression=False, wait_on_rate_limit=False,
wait_on_rate_limit_notify=False, proxy=''`. -/
def API_default : Except String APIState :=
  API_init Option.none "api.twitter.com" "search.twitter.com" Option.none "/1.1" ""
    0 0 Option.none 60 ParserArgV.pyNone false false false ""

/-- A Python value appearing as an element of a list-valued argument to a
bulk-lookup call: a numeric id or a screen name. -/
inductive PyItem where
  | num (n : Nat)
  | str (s : String)
deriving DecidableEq, Repr

/-- `str(i)` for a `PyItem`. -/
def pyItemStr : PyItem → String
  | PyItem.num n => toString n
  | PyItem.str s => s

/-- Modelled from the spec: `list_to_csv` lives in `tweepy/utils.py`, which
is not under src/; only its call sites in `tweepy/api.py` are.  The spec
says list-valued arguments "are flattened to comma-joined strings before
transmission" and "the transmitted value equals the comma-join of the
list's string forms, in original order"; `None` passes through unchanged. -/
def list_to_csv : Option (List PyItem) → Option String
  | Option.none => Option.none
  | Option.some l => Option.some (String.intercalate "," (l.map pyItemStr))

/-- `API.statuses_lookup`: the argument tuple it passes to the bound
/statuses/lookup.json endpoint —
`(list_to_csv(id_), include_entities, trim_user, map_)`. -/
def statuses_lookup (id_ : Option (List PyItem))
    (include_entities trim_user map_ : Option String) :
    Option String × Option String × Option String × Option String :=
  (list_to_csv id_, include_entities, trim_user, map_)

/-- `API.lookup_users`: the argument tuple it passes to the bound
/users/lookup.json endpoint —
`(list_to_csv(user_ids), list_to_csv(screen_names))`. -/
def lookup_users (user_ids screen_names : Option (List PyItem)) :
    Option String × Option String :=
  (list_to_csv user_ids, list_to_csv screen_names)

/-- `API.lookup_friendships`: the argument tuple it passes to the bound
/friendships/lookup.json endpoint —
`(list_to_csv(user_ids), list_to_csv(screen_names))`. -/
def lookup_friendships (user_ids screen_names : Option (List PyItem)) :
    Option String × Option String :=
  (list_to_csv user_ids, list_to_csv screen_names)

/-- `API.add_list_members`: the argument tuple it passes to the bound
/lists/members/create_all.json endpoint. -/
def add_list_members (screen_name user_id : Option (List PyItem))
    (slug list_id owner_id owner_screen_name : Option String) :
    Option String × Option String × Option String × Option String ×
      Option String × Option String :=
  (list_to_csv screen_name, list_to_csv user_id, slug, list_id, owner_id,
   owner_screen_name)

/-- `API.remove_list_members`: the argument tuple it passes to the bound
/lists/members/destroy_all.json endpoint. -/
def remove_list_members (screen_name user_id : Option (List PyItem))
    (slug list_id owner_id owner_screen_name : Option String) :
    Option String × Option String × Option String × Option String ×
      Option String × Option String :=
  (list_to_csv screen_name, list_to_csv user_id, slug, list_id, owner_id,
   owner_screen_name)

/-- An endpoint declaration as handed to `bind_api` in `tweepy/api.py`. -/
structure EndpointDescriptor where
  path : String
  method : String
  payload_type : String
  payload_list : Bool
  allowed_param : List String
  require_auth : Bool
deriving DecidableEq, Repr

/-- The `API.home_timeline` declaration (tweepy/api.py lines 73-84). -/
def home_timeline : EndpointDescriptor :=
  { path := "/statuses/home_timeline.json"
    method := "GET"
    payload_type := "status"
    payload_list := true
    allowed_param := ["since_id", "max_id", "count"]
    require_auth := true }

/-- The error classes of the Binder's argument validation. -/
inductive BindError where
  | validationError
deriving DecidableEq, Repr

/-- Modelled from the spec: the Binder (`bind_api` / `tweepy/binder.py`) is
not under src/; only the descriptors `tweepy/api.py` hands to it are.  Per
the spec, `execute(descriptor, args)` rejects with `ValidationError`, and
issues zero network calls, whenever any call-time argument name is absent
from the descriptor's closed `allowed_param` set; otherwise it performs one
network transaction.  The result's first component counts network calls. -/
def execute (d : EndpointDescriptor) (args : List (String × String))
    (transport : String → List (String × String) → String) :
    Nat × Except BindError String :=
  if args.all (fun kv => d.allowed_param.contains kv.1) then
    (1, Except.ok (transport d.path args))
  else
    (0, Except.error BindError.validationError)

/-- A byte string of `n` identical bytes, used to exercise the size checks
at concrete sizes. -/
def bigBytes (n : Nat) : String :=
  String.mk (List.replicate n 'a')

theorem bigBytes_length (n : Nat) : (bigBytes n).length = n := by
  simp [bigBytes, String.length]

theorem mimetypes_guess_type_eq (filename : String) :
    mimetypes_guess_type filename =
      Option.some (guessedType filename, Option.none) := rfl

/-- Helper: whenever the upload source's byte length strictly exceeds
`max_size * 1024`, `_pack_image` raises the too-big `TweepError`,
whichever branch (named file or open file object) supplied the bytes. -/
theorem pack_image_too_big (fs : String → Option String) (filename : String)
    (max_size : Nat) (form_field : String) (f : Option String) (n : Nat)
    (hsz : sourceSize fs filename f = Option.some n)
    (hbig : n > max_size * 1024) :
    pack_image fs filename max_size form_field f =
      Except.error ⟨"File is too big, must be less than 700kb.", Option.none⟩ := by
  cases f with
  | some contents =>
    simp only [sourceSize, Option.some.injEq] at hsz
    subst hsz
    simp [pack_image, sizeCheckedContents, hbig]
  | none =>
    simp only [sourceSize] at hsz
    cases hfs : fs filename with
    | none => rw [hfs] at hsz; exact Option.noConfusion hsz
    | some contents =>
      rw [hfs] at hsz
      simp only [Option.map_some', Option.some.injEq] at hsz
      subst hsz
      simp [pack_image, sizeCheckedContents, hfs, hbig]

/-- Helper: when the size check passes but the guessed MIME type is
outside the allow-list, `_pack_image` raises the invalid-type `TweepError`
carrying that type, in both branches. -/
theorem pack_image_bad_type (fs : String → Option String) (filename : String)
    (max_size : Nat) (form_field : String) (f : Option String) (n : Nat)
    (t : String)
    (hsz : sourceSize fs filename f = Option.some n)
    (hok : ¬ n > max_size * 1024)
    (hft : guessedType filename = Option.some t)
    (hnot : t ∉ imageAllowList) :
    pack_image fs filename max_size form_field f =
      Except.error ⟨"Invalid file type for image: " ++ t, Option.none⟩ := by
  cases f with
  | some contents =>
    simp only [sourceSize, Option.some.injEq] at hsz
    subst hsz
    simp [pack_image, sizeCheckedContents, hok, mimetypes_guess_type_eq, hft, hnot]
  | none =>
    simp only [sourceSize] at hsz
    cases hfs : fs filename with
    | none => rw [hfs] at hsz; exact Option.noConfusion hsz
    | some contents =>
      rw [hfs] at hsz
      simp only [Option.map_some', Option.some.injEq] at hsz
      subst hsz
      simp [pack_image, sizeCheckedContents, hfs, hok, mimetypes_guess_type_eq,
        hft, hnot]

/-- C3: `verify_credentials` downgrades exactly the 401 case to the boolean
`False`: on success the decoded user is returned; a `TweepError` whose
attached response has status 401 becomes the value `False`; every other
`TweepError` (no response, or any other status) is re-raised unchanged. -/
theorem verify_credentials_classification :
    (∀ u, verify_credentials (Except.ok u) = Except.ok (VCValue.user u)) ∧
    (∀ e : TweepE, e.response = Option.some 401 →
      verify_credentials (Except.error e) = Except.ok VCValue.boolFalse) ∧
    (∀ e : TweepE, e.response ≠ Option.some 401 →
      verify_credentials (Except.error e) = Except.error e) := by
  refine ⟨fun u => rfl, fun e h => ?_, fun e h => ?_⟩
  · simp [verify_credentials, h]
  · cases hr : e.response with
    | none => simp [verify_credentials, hr]
    | some status =>
      have hne : status ≠ 401 := by
        intro h401
        exact h (by rw [hr, h401])
      simp [verify_credentials, hr, hne]

/-- Witness for C3 at concrete inputs: a 401-carrying error becomes
`False`, a 404-carrying error is re-raised unchanged, and a successful call
returns the decoded user. -/
theorem verify_credentials_classification_witness :
    verify_credentials (Except.ok "me") = Except.ok (VCValue.user "me") ∧
    verify_credentials (Except.error ⟨"Unauthorized", Option.some 401⟩) =
      Except.ok VCValue.boolFalse ∧
    verify_credentials (Except.error ⟨"Not Found", Option.some 404⟩) =
      Except.error ⟨"Not Found", Option.some 404⟩ :=
  ⟨verify_credentials_classification.1 "me",
   verify_credentials_classification.2.1 ⟨"Unauthorized", Option.some 401⟩ rfl,
   verify_credentials_classification.2.2 ⟨"Not Found", Option.some 404⟩ (by decide)⟩

/-- C5: for every bulk-lookup style wrapper (statuses_lookup, lookup_users,
lookup_friendships, add_list_members, remove_list_members), the value
transmitted for a list-valued argument is the comma-join of the elements'
string forms, in original order (`list_to_csv` applied before delegating). -/
theorem bulk_list_args_comma_joined (l1 l2 : List PyItem)
    (a b c d : Option String) :
    (statuses_lookup (Option.some l1) a b c).1 =
      Option.some (String.intercalate "," (l1.map pyItemStr)) ∧
    lookup_users (Option.some l1) (Option.some l2) =
      (Option.some (String.intercalate "," (l1.map pyItemStr)),
       Option.some (String.intercalate "," (l2.map pyItemStr))) ∧
    lookup_friendships (Option.some l1) (Option.some l2) =
      (Option.some (String.intercalate "," (l1.map pyItemStr)),
       Option.some (String.intercalate "," (l2.map pyItemStr))) ∧
    add_list_members (Option.some l1) (Option.some l2) a b c d =
      (Option.some (String.intercalate "," (l1.map pyItemStr)),
       Option.some (String.intercalate "," (l2.map pyItemStr)), a, b, c, d) ∧
    remove_list_members (Option.some l1) (Option.some l2) a b c d =
      (Option.some (String.intercalate "," (l1.map pyItemStr)),
       Option.some (String.intercalate "," (l2.map pyItemStr)), a, b, c, d) :=
  ⟨rfl, rfl, rfl, rfl, rfl⟩

/-- C6: the declared parameter name set of an endpoint is closed — a call
whose arguments contain any name outside `allowed_param` fails with
`ValidationError` and performs zero network calls. -/
theorem execute_rejects_unknown_param (d : EndpointDescriptor)
    (args : List (String × String))
    (transport : String → List (String × String) → String)
    (kv : String × String)
    (hmem : kv ∈ args)
    (hnot : d.allowed_param.contains kv.1 = false) :
    execute d args transport = (0, Except.error BindError.validationError) := by
  unfold execute
  have hall : args.all (fun kv => d.allowed_param.contains kv.1) = false := by
    cases hcase : args.all (fun kv => d.allowed_param.contains kv.1) with
    | false => rfl
    | true =>
      have hkv := List.all_eq_true.mp hcase kv hmem
      rw [hnot] at hkv
      exact Bool.noConfusion hkv
  rw [hall]
  simp

/-- Witness for C6: calling home_timeline with the unknown argument name
"foo" is rejected with zero network calls. -/
theorem execute_rejects_unknown_param_witness :
    execute home_timeline [("foo", "1")] (fun _ _ => "") =
      (0, Except.error BindError.validationError) :=
  execute_rejects_unknown_param home_timeline [("foo", "1")] (fun _ _ => "")
    ("foo", "1") (by simp) (by decide)

/-- C7: `API()` with no arguments succeeds and stores the documented
defaults: host 'api.twitter.com', api_root '/1.1', retry_count 0,
retry_delay 0, retry_errors None, timeout 60, compression False,
wait_on_rate_limit False, wait_on_rate_limit_notify False, an empty proxy
mapping, cache None and auth_handler None (the parser defaults to a
ModelParser instance). -/
theorem API_default_values :
    API_default = Except.ok
      { auth := Option.none
        host := "api.twitter.com"
        search_host := "search.twitter.com"
        api_root := "/1.1"
        search_root := ""
        cache := Option.none
        compression := false
        retry_count := 0
        retry_delay := 0
        retry_errors := Option.none
        timeout := 60
        wait_on_rate_limit := false
        wait_on_rate_limit_notify := false
        parser := ParserArgV.modelParserInst
        proxy := [] } := by
  rfl

/-- C8 counterexample: the claim "if the parser argument is not None and
not an instance of the Parser base class, construction raises TypeError"
is false — the falsy non-None non-Parser value `0` is silently replaced by
`ModelParser()` (via `parser or ModelParser()`) and construction succeeds. -/
theorem API_init_parser_counterexample :
    ParserArgV.intVal 0 ≠ ParserArgV.pyNone ∧
    isParserInstance (ParserArgV.intVal 0) = false ∧
    API_init Option.none "api.twitter.com" "search.twitter.com" Option.none
        "/1.1" "" 0 0 Option.none 60 (ParserArgV.intVal 0) false false false "" =
      Except.ok
        { auth := Option.none
          host := "api.twitter.com"
          search_host := "search.twitter.com"
          api_root := "/1.1"
          search_root := ""
          cache := Option.none
          compression := false
          retry_count := 0
          retry_delay := 0
          retry_errors := Option.none
          timeout := 60
          wait_on_rate_limit := false
          wait_on_rate_limit_notify := false
          parser := ParserArgV.modelParserInst
          proxy := [] } :=
  ⟨by decide, by decide, rfl⟩

/-- C8 (amended): if the parser argument is truthy and not a `Parser`
instance, construction raises TypeError; any falsy parser value (None, 0,
'', ...) is replaced by a ModelParser; hence every successfully constructed
API stores a parser that is a `Parser` instance. -/
theorem API_init_parser_check :
    (∀ ah h sh c ar sr rc rd re t (p : ParserArgV) comp w wn px,
      pyTruthy p = true → isParserInstance p = false →
      API_init ah h sh c ar sr rc rd re t p comp w wn px =
        Except.error "TypeError: parser argument has to be an instance of Parser") ∧
    (∀ ah h sh c ar sr rc rd re t p comp w wn px st,
      API_init ah h sh c ar sr rc rd re t p comp w wn px = Except.ok st →
      isParserInstance st.parser = true) := by
  constructor
  · intro ah h sh c ar sr rc rd re t p comp w wn px htr hinst
    simp [API_init, htr, hinst]
  · intro ah h sh c ar sr rc rd re t p comp w wn px st hok
    unfold API_init at hok
    by_cases hinst :
        isParserInstance (if pyTruthy p then p else ParserArgV.modelParserInst) = true
    · rw [if_pos hinst] at hok
      cases hok
      exact hinst
    · rw [if_neg hinst] at hok
      cases hok

/-- C9: the upload size check uses strict inequality — a file of exactly
`max_size * 1024` bytes passes the size check of `_pack_image`, in both
the named-file branch and the open-file-object branch. -/
theorem pack_image_size_check_exact (fs : String → Option String)
    (filename : String) (max_size : Nat) (contents : String)
    (hlen : contents.length = max_size * 1024) :
    (fs filename = Option.some contents →
      sizeCheckedContents fs filename max_size Option.none =
        Except.ok contents) ∧
    sizeCheckedContents fs filename max_size (Option.some contents) =
      Except.ok contents := by
  have hnot : ¬ contents.length > max_size * 1024 := by
    rw [hlen]
    exact Nat.lt_irrefl _
  constructor
  · intro hfs
    simp [sizeCheckedContents, hfs, hnot]
  · simp [sizeCheckedContents, hnot]

/-- Witness for C9: a 716800-byte file (exactly 700 * 1024) passes the
700kb size check in both branches. -/
theorem pack_image_size_check_exact_witness :
    sizeCheckedContents (fun _ => Option.some (bigBytes 716800)) "a.png" 700
        Option.none = Except.ok (bigBytes 716800) ∧
    sizeCheckedContents (fun _ => Option.some (bigBytes 716800)) "a.png" 700
        (Option.some (bigBytes 716800)) = Except.ok (bigBytes 716800) := by
  have h := pack_image_size_check_exact (fun _ => Option.some (bigBytes 716800))
    "a.png" 700 (bigBytes 716800) (by rw [bigBytes_length])
  exact ⟨h.1 rfl, h.2⟩

/-- C10: the 'Could not determine file type' branch is unreachable —
`mimetypes.guess_type` always returns a pair, never `None` — and for a
filename whose MIME type cannot be guessed the pair's first component is
`None`, which fails the allow-list test, so the error actually raised is
'Invalid file type for image: None'. -/
theorem guess_type_none_branch_unreachable :
    (∀ filename, mimetypes_guess_type filename ≠ Option.none) ∧
    (∀ (fs : String → Option String) (filename : String) (max_size : Nat)
        (form_field : String) (f : Option String) (n : Nat),
      sourceSize fs filename f = Option.some n →
      ¬ n > max_size * 1024 →
      guessedType filename = Option.none →
      pack_image fs filename max_size form_field f =
        Except.error ⟨"Invalid file type for image: None", Option.none⟩) := by
  constructor
  · intro filename
    simp [mimetypes_guess_type]
  · intro fs filename max_size form_field f n hsz hok hnone
    cases f with
    | some contents =>
      simp only [sourceSize, Option.some.injEq] at hsz
      subst hsz
      simp [pack_image, sizeCheckedContents, hok, mimetypes_guess_type_eq,
        hnone, pyStrOpt]
    | none =>
      simp only [sourceSize] at hsz
      cases hfs : fs filename with
      | none => rw [hfs] at hsz; exact Option.noConfusion hsz
      | some contents =>
        rw [hfs] at hsz
        simp only [Option.map_some', Option.some.injEq] at hsz
        subst hsz
        simp [pack_image, sizeCheckedContents, hfs, hok, mimetypes_guess_type_eq,
          hnone, pyStrOpt]

/-- Witness for C10: for the unguessable filename "file.xyz",
`mimetypes.guess_type` is not `None`, and `_pack_image` raises
'Invalid file type for image: None'. -/
theorem guess_type_none_branch_unreachable_witness :
    mimetypes_guess_type "file.xyz" ≠ Option.none ∧
    pack_image (fun _ => Option.none) "file.xyz" 700 "image" (Option.some "") =
      Except.error ⟨"Invalid file type for image: None", Option.none⟩ :=
  ⟨guess_type_none_branch_unreachable.1 "file.xyz",
   guess_type_none_branch_unreachable.2 (fun _ => Option.none) "file.xyz" 700
     "image" (Option.some "") 0 rfl (by decide) rfl⟩

/-- C1: each of the four upload calls (update_with_media,
update_profile_image, update_profile_background_image,
update_profile_banner) rejects, inside `_pack_image` and with zero network
calls, a source whose byte length strictly exceeds its declared ceiling
(3072, 700, 800 and 700 kilobytes respectively), whichever way the file was
supplied. -/
theorem upload_calls_reject_oversized (fs : String → Option String)
    (filename : String) (f : Option String)
    (transport : List (String × String) → String → String) (n : Nat)
    (hsz : sourceSize fs filename f = Option.some n) :
    (n > 3072 * 1024 → update_with_media fs filename f transport =
      ⟨0, Except.error ⟨"File is too big, must be less than 700kb.", Option.none⟩⟩) ∧
    (n > 700 * 1024 → update_profile_image fs filename f transport =
      ⟨0, Except.error ⟨"File is too big, must be less than 700kb.", Option.none⟩⟩) ∧
    (n > 800 * 1024 → update_profile_background_image fs filename f transport =
      ⟨0, Except.error ⟨"File is too big, must be less than 700kb.", Option.none⟩⟩) ∧
    (n > 700 * 1024 → update_profile_banner fs filename f transport =
      ⟨0, Except.error ⟨"File is too big, must be less than 700kb.", Option.none⟩⟩) := by
  refine ⟨fun h => ?_, fun h => ?_, fun h => ?_, fun h => ?_⟩
  · unfold update_with_media
    rw [pack_image_too_big fs filename 3072 "media[]" f n hsz h]
    rfl
  · unfold update_profile_image
    rw [pack_image_too_big fs filename 700 "image" f n hsz h]
    rfl
  · unfold update_profile_background_image
    rw [pack_image_too_big fs filename 800 "image" f n hsz h]
    rfl
  · unfold update_profile_banner
    rw [pack_image_too_big fs filename 700 "banner" f n hsz h]
    rfl

/-- Witness for C1: a file of 716801 bytes (ceiling + 1 for the 700kb
endpoints), supplied as an open file object, makes update_profile_image
fail with the too-big error and zero network calls. -/
theorem upload_calls_reject_oversized_witness :
    update_profile_image (fun _ => Option.none) "a.png"
        (Option.some (bigBytes 716801)) (fun _ _ => "") =
      ⟨0, Except.error ⟨"File is too big, must be less than 700kb.", Option.none⟩⟩ := by
  have h := upload_calls_reject_oversized (fun _ => Option.none) "a.png"
    (Option.some (bigBytes 716801)) (fun _ _ => "") 716801
    (by simp [sourceSize, bigBytes_length])
  exact h.2.1 (by norm_num)

/-- C2: each of the four upload calls rejects, inside `_pack_image` and
with zero network calls, a file whose guessed MIME type is outside
{image/gif, image/jpeg, image/png}, provided the size check passed. -/
theorem upload_calls_reject_bad_mime (fs : String → Option String)
    (filename : String) (f : Option String)
    (transport : List (String × String) → String → String) (n : Nat)
    (t : String)
    (hsz : sourceSize fs filename f = Option.some n)
    (hft : guessedType filename = Option.some t)
    (hnot : t ∉ imageAllowList) :
    (¬ n > 3072 * 1024 → update_with_media fs filename f transport =
      ⟨0, Except.error ⟨"Invalid file type for image: " ++ t, Option.none⟩⟩) ∧
    (¬ n > 700 * 1024 → update_profile_image fs filename f transport =
      ⟨0, Except.error ⟨"Invalid file type for image: " ++ t, Option.none⟩⟩) ∧
    (¬ n > 800 * 1024 → update_profile_background_image fs filename f transport =
      ⟨0, Except.error ⟨"Invalid file type for image: " ++ t, Option.none⟩⟩) ∧
    (¬ n > 700 * 1024 → update_profile_banner fs filename f transport =
      ⟨0, Except.error ⟨"Invalid file type for image: " ++ t, Option.none⟩⟩) := by
  refine ⟨fun h => ?_, fun h => ?_, fun h => ?_, fun h => ?_⟩
  · unfold update_with_media
    rw [pack_image_bad_type fs filename 3072 "media[]" f n t hsz h hft hnot]
    rfl
  · unfold update_profile_image
    rw [pack_image_bad_type fs filename 700 "image" f n t hsz h hft hnot]
    rfl
  · unfold update_profile_background_image
    rw [pack_image_bad_type fs filename 800 "image" f n t hsz h hft hnot]
    rfl
  · unfold update_profile_banner
    rw [pack_image_bad_type fs filename 700 "banner" f n t hsz h hft hnot]
    rfl

/-- Witness for C2: "a.bmp" guesses to image/bmp, which is outside the
allow-list, so update_profile_image rejects it with zero network calls. -/
theorem upload_calls_reject_bad_mime_witness :
    update_profile_image (fun _ => Option.none) "a.bmp" (Option.some "BM")
        (fun _ _ => "") =
      ⟨0, Except.error
        ⟨"Invalid file type for image: " ++ "image/bmp", Option.none⟩⟩ := by
  have h := upload_calls_reject_bad_mime (fun _ => Option.none) "a.bmp"
    (Option.some "BM") (fun _ _ => "") 2 "image/bmp" rfl rfl (by decide)
  exact h.2.1 (by decide)

/-- C4: when `_pack_image` accepts a file it returns the multipart body —
the CRLF-join of the opening boundary line '--Tw3ePy', the
Content-Disposition line with the form field name and URL-quoted filename,
the Content-Type line, a blank line, the file bytes, the closing boundary
'--Tw3ePy--' and a trailing empty segment — together with headers mapping
Content-Type to 'multipart/form-data; boundary=Tw3ePy' and Content-Length
to the decimal string of the body's length. -/
theorem pack_image_multipart (fs : String → Option String) (filename : String)
    (max_size : Nat) (form_field contents t : String)
    (hft : guessedType filename = Option.some t)
    (hallow : t ∈ imageAllowList)
    (hsize : ¬ contents.length > max_size * 1024) :
    (fs filename = Option.some contents →
      pack_image fs filename max_size form_field Option.none =
        Except.ok
          ([("Content-Type", "multipart/form-data; boundary=Tw3ePy"),
            ("Content-Length",
              toString (String.intercalate "\r\n"
                ["--Tw3ePy",
                 "Content-Disposition: form-data; name=\"" ++ form_field ++
                   "\"; filename=\"" ++ urllib_quote filename ++ "\"",
                 "Content-Type: " ++ t,
                 "",
                 contents,
                 "--Tw3ePy--",
                 ""]).length)],
           String.intercalate "\r\n"
             ["--Tw3ePy",
              "Content-Disposition: form-data; name=\"" ++ form_field ++
                "\"; filename=\"" ++ urllib_quote filename ++ "\"",
              "Content-Type: " ++ t,
              "",
              contents,
              "--Tw3ePy--",
              ""])) ∧
    (pack_image fs filename max_size form_field (Option.some contents) =
      Except.ok
        ([("Content-Type", "multipart/form-data; boundary=Tw3ePy"),
          ("Content-Length",
            toString (String.intercalate "\r\n"
              ["--Tw3ePy",
               "Content-Disposition: form-data; name=\"" ++ form_field ++
                 "\"; filename=\"" ++ urllib_quote filename ++ "\"",
               "Content-Type: " ++ t,
               "",
               contents,
               "--Tw3ePy--",
               ""]).length)],
         String.intercalate "\r\n"
           ["--Tw3ePy",
            "Content-Disposition: form-data; name=\"" ++ form_field ++
              "\"; filename=\"" ++ urllib_quote filename ++ "\"",
            "Content-Type: " ++ t,
            "",
            contents,
            "--Tw3ePy--",
            ""])) := by
  have hb : multipartBody form_field filename t contents =
      String.intercalate "\r\n"
        ["--Tw3ePy",
         "Content-Disposition: form-data; name=\"" ++ form_field ++
           "\"; filename=\"" ++ urllib_quote filename ++ "\"",
         "Content-Type: " ++ t,
         "",
         contents,
         "--Tw3ePy--",
         ""] := rfl
  constructor
  · intro hfs
    rw [← hb]
    simp [pack_image, sizeCheckedContents, hfs, hsize, mimetypes_guess_type_eq,
      hft, hallow]
  · rw [← hb]
    simp [pack_image, sizeCheckedContents, hsize, mimetypes_guess_type_eq,
      hft, hallow]

/-- Witness for C4: packing the 4-byte file "GIF8" named "a.gif" under the
700kb ceiling yields the Tw3ePy multipart body and headers. -/
theorem pack_image_multipart_witness :
    pack_image (fun _ => Option.some "GIF8") "a.gif" 700 "image" Option.none =
      Except.ok
        ([("Content-Type", "multipart/form-data; boundary=Tw3ePy"),
          ("Content-Length",
            toString (String.intercalate "\r\n"
              ["--Tw3ePy",
               "Content-Disposition: form-data; name=\"" ++ "image" ++
                 "\"; filename=\"" ++ urllib_quote "a.gif" ++ "\"",
               "Content-Type: " ++ "image/gif",
               "",
               "GIF8",
               "--Tw3ePy--",
               ""]).length)],
         String.intercalate "\r\n"
           ["--Tw3ePy",
            "Content-Disposition: form-data; name=\"" ++ "image" ++
              "\"; filename=\"" ++ urllib_quote "a.gif" ++ "\"",
            "Content-Type: " ++ "image/gif",
            "",
            "GIF8",
            "--Tw3ePy--",
            ""]) :=
  (pack_image_multipart (fun _ => Option.some "GIF8") "a.gif" 700 "image"
    "GIF8" "image/gif" rfl (by decide) (by decide)).1 rfl

/-- Witness for C8's amended claim: a truthy non-Parser value (the string
"x") makes construction raise TypeError. -/
theorem API_init_parser_check_witness :
    API_init Option.none "api.twitter.com" "search.twitter.com" Option.none
        "/1.1" "" 0 0 Option.none 60 (ParserArgV.strVal "x") false false false "" =
      Except.error "TypeError: parser argument has to be an instance of Parser" :=
  API_init_parser_check.1 Option.none "api.twitter.com" "search.twitter.com"
    Option.none "/1.1" "" 0 0 Option.none 60 (ParserArgV.strVal "x") false false
    false "" (by decide) (by decide)

end Tweepy
